import Mathlib

/-!
Verification of the contact-lookup gateway (`3cx_api/main.py`).

The development shallowly embeds the request handler `lookup_contact`,
the credential check `get_current_credentials`, the SQL `WHERE` clause of
the one query the service runs, and the response formatter.  Machine-level
concerns (logging, the ASGI server, the rate limiter's clock) are outside
the embedding; the database is modelled as the list of rows of the
`Users` table together with a possible execution failure.
-/

/-- A row of the `Users` table.  Phone, name, email and organization
columns are nullable, modelled with `Option`. -/
structure UserRow where
  id : Int
  RealName : Option String
  WorkPhone : Option String
  MobilePhone : Option String
  HomePhone : Option String
  EmailAddress : Option String
  Organization : Option String
deriving DecidableEq

/-- One formatted entry of the JSON response built by the handler. -/
structure ContactData where
  contactid : Int
  firstname : String
  lastname : String
  company : String
  email : Option String
  phonebusiness : String
  phonemobile : String
  phonehome : String
deriving DecidableEq

/-- The JSON body returned on success: a single key `contacts`. -/
structure ContactsResponse where
  contacts : List ContactData
deriving DecidableEq

/-- Outcome of one handler invocation: a 200 payload, or an
`HTTPException(status_code, detail)`. -/
inductive HttpResult where
  | success : ContactsResponse → HttpResult
  | failure : Nat → String → HttpResult
deriving DecidableEq

/-- Outcome of `db.execute(...).fetchall()`: either the table rows that
the query will filter, or a raised exception with its message. -/
inductive DbOutcome where
  | ok : List UserRow → DbOutcome
  | fail : String → DbOutcome
deriving DecidableEq

/-- The configured `FASTAPI_API_KEY` / `FASTAPI_API_PASSWORD` pair. -/
structure AuthConfig where
  API_KEY : String
  API_PASSWORD : String
deriving DecidableEq

/-- HTTP Basic credentials presented by the caller. -/
structure Credentials where
  username : String
  password : String
deriving DecidableEq

/-- Python truthiness of an `Optional[str]`: `None` and `""` are falsy,
every other string is truthy. -/
def pytruthy : Option String → Bool
  | none => false
  | some s => !(s == "")

/-- Python `x if x else ""` (and `x or ""`) on an `Optional[str]` value. -/
def pyOrEmpty : Option String → String
  | none => ""
  | some s => if s == "" then "" else s

/-- `s.replace(' ', '')` in Python, and `REPLACE(col, ' ', '')` in SQL:
drop every space character. -/
def stripSpaces (s : String) : String :=
  ⟨s.data.filter (fun c => c != ' ')⟩

/-- SQL `LIKE` matching over character lists.  `%` matches any (possibly
empty) sequence, `_` matches exactly one character, every other pattern
character matches itself.  No escape character is involved: the service
never declares one. -/
def likeMatchL : List Char → List Char → Bool
  | [], s => s.isEmpty
  | p :: ps, s =>
    if p = '%' then
      s.tails.any (fun t => likeMatchL ps t)
    else
      match s with
      | [] => false
      | c :: cs => ((p == '_') || (p == c)) && likeMatchL ps cs

/-- SQL `LIKE` on strings: `likeMatch pat s` is `s LIKE pat`. -/
def likeMatch (pat s : String) : Bool :=
  likeMatchL pat.data s.data

/-- The bound parameters the handler passes to `db.execute`. -/
structure QueryParams where
  number : Option String
  like_pattern : Option String
  email : Option String
  exact_email : Option String
deriving DecidableEq

/-- Parameter construction of `lookup_contact` (main.py lines 101-116):
if `Number` is truthy, `like_pattern` is `"%" + Number.replace(' ','') + "%"`
and `number` is the raw input, else both are `NULL`; similarly for
`Email` / `exact_email`. -/
def mkParams (num em : Option String) : QueryParams :=
  { number := if pytruthy num then num else none
    like_pattern :=
      if pytruthy num then some ("%" ++ stripSpaces (num.getD "") ++ "%") else none
    email := if pytruthy em then em else none
    exact_email := if pytruthy em then em else none }

/-- One `REPLACE(col, ' ', '') LIKE :like_pattern` atom of the `WHERE`
clause.  A NULL column or a NULL pattern makes the comparison UNKNOWN,
which the surrounding (negation-free) clause treats as not satisfied. -/
def colLike (col : Option String) (lp : Option String) : Bool :=
  match col, lp with
  | some c, some p => likeMatch p (stripSpaces c)
  | _, _ => false

/-- The `EmailAddress = :exact_email` atom; NULL on either side is
UNKNOWN, hence not satisfied. -/
def colEq (col : Option String) (q : Option String) : Bool :=
  match col, q with
  | some c, some e => c == e
  | _, _ => false

/-- The `WHERE` clause of the query (main.py lines 91-98), evaluated on
one row:
`(:number IS NOT NULL AND (REPLACE(HomePhone,' ','') LIKE :like_pattern
OR REPLACE(WorkPhone,' ','') LIKE :like_pattern OR
REPLACE(MobilePhone,' ','') LIKE :like_pattern)) OR
(:email IS NOT NULL AND EmailAddress = :exact_email)`. -/
def rowMatches (p : QueryParams) (r : UserRow) : Bool :=
  (p.number.isSome &&
    (colLike r.HomePhone p.like_pattern ||
     colLike r.WorkPhone p.like_pattern ||
     colLike r.MobilePhone p.like_pattern))
  || (p.email.isSome && colEq r.EmailAddress p.exact_email)

/-- Executing the query returns, in table order, the rows satisfying the
`WHERE` clause. -/
def runQuery (table : List UserRow) (p : QueryParams) : List UserRow :=
  table.filter (fun r => rowMatches p r)

/-- Python `str.split(' ')` on a character list: split at every single
space, keeping empty fragments, so that `"".split(' ') == ['']` and
`"a  b".split(' ') == ['a', '', 'b']`. -/
def splitSpace : List Char → List (List Char)
  | [] => [[]]
  | c :: cs =>
    match splitSpace cs with
    | [] => [[]]
    | t :: ts => if c = ' ' then [] :: t :: ts else (c :: t) :: ts

/-- The response formatter (main.py lines 139-156): split the
null-coalesced `RealName` on spaces, first fragment is `firstname`, the
remaining fragments rejoined with spaces are `lastname` when there are at
least two fragments; `company` and the phone fields null-coalesce to
`""`; `email` is passed through as stored. -/
def formatContact (r : UserRow) : ContactData :=
  let real_name := pyOrEmpty r.RealName
  let name_parts := splitSpace real_name.data
  let first_name := match name_parts with
    | [] => ""
    | t :: _ => String.mk t
  let last_name :=
    if name_parts.length > 1 then
      String.mk (List.intercalate [' '] (name_parts.drop 1))
    else ""
  { contactid := r.id
    firstname := first_name
    lastname := last_name
    company := pyOrEmpty r.Organization
    email := r.EmailAddress
    phonebusiness := pyOrEmpty r.WorkPhone
    phonemobile := pyOrEmpty r.MobilePhone
    phonehome := pyOrEmpty r.HomePhone }

/-- The credential dependency `get_current_credentials` (main.py lines
43-61): timing-safe comparison of username against `API_KEY` and password
against `API_PASSWORD` (modelled as string equality, which
`secrets.compare_digest` decides); any mismatch raises
`HTTPException(403, "Could not validate credentials")`. -/
def get_current_credentials (cfg : AuthConfig) (c : Credentials) :
    Except (Nat × String) String :=
  let correct_username := c.username == cfg.API_KEY
  let correct_password := c.password == cfg.API_PASSWORD
  if !(correct_username && correct_password) then
    .error (403, "Could not validate credentials")
  else
    .ok c.username

/-- The endpoint body `lookup_contact` (main.py lines 63-164), after the
framework has resolved its dependencies: reject when both parameters are
falsy, otherwise run the query once; an execution failure becomes a
generic 500, an empty result a 404, and a non-empty result the formatted
200 payload. -/
def lookup_contact (Number Email : Option String) (db : DbOutcome) : HttpResult :=
  if !pytruthy Number && !pytruthy Email then
    .failure 400 "Either Number or Email must be provided"
  else
    match db with
    | .fail _ => .failure 500 "Database error occurred."
    | .ok table =>
      let results := runQuery table (mkParams Number Email)
      if results.isEmpty then .failure 404 "Contact not found"
      else .success ⟨results.map formatContact⟩

/-- A request as dispatched to the endpoint: the `Security` dependency
runs `get_current_credentials` first; its `HTTPException` becomes the
response, otherwise the endpoint body runs. -/
def handleRequest (cfg : AuthConfig) (c : Credentials)
    (Number Email : Option String) (db : DbOutcome) : HttpResult :=
  match get_current_credentials cfg c with
  | .error e => .failure e.1 e.2
  | .ok _ => lookup_contact Number Email db

/-! ### LIKE-pattern lemmas -/

/-- A bare `%` pattern accepts every string. -/
theorem likeMatchL_single_percent (s : List Char) : likeMatchL ['%'] s = true := by
  show (s.tails.any fun t => likeMatchL [] t) = true
  refine List.any_eq_true.mpr ⟨[], (List.mem_tails _ _).mpr List.nil_suffix, ?_⟩
  rfl

/-- The pattern `%%` accepts every string. -/
theorem likeMatchL_double_percent (s : List Char) : likeMatchL ['%', '%'] s = true := by
  show (s.tails.any fun t => likeMatchL ['%'] t) = true
  exact List.any_eq_true.mpr
    ⟨s, (List.mem_tails _ _).mpr (List.suffix_refl s), likeMatchL_single_percent s⟩

/-- A wildcard-free needle followed by `%` accepts exactly the strings the
needle is a prefix of. -/
theorem likeMatchL_append_percent (n : List Char)
    (hn : ∀ c ∈ n, c ≠ '%' ∧ c ≠ '_') (t : List Char) :
    likeMatchL (n ++ ['%']) t = n.isPrefixOf t := by
  induction n generalizing t with
  | nil =>
    simp [likeMatchL_single_percent]
  | cons c cs ih =>
    have hc := hn c (List.mem_cons_self c cs)
    have hcs : ∀ a ∈ cs, a ≠ '%' ∧ a ≠ '_' := fun a ha => hn a (List.mem_cons_of_mem c ha)
    have hund : (c == '_') = false := beq_eq_false_iff_ne.mpr hc.2
    cases t with
    | nil =>
      show likeMatchL (c :: (cs ++ ['%'])) [] = _
      simp only [likeMatchL]
      rw [if_neg hc.1]
      simp [List.isPrefixOf]
    | cons a ts =>
      show likeMatchL (c :: (cs ++ ['%'])) (a :: ts) = _
      simp only [likeMatchL]
      rw [if_neg hc.1]
      rw [List.isPrefixOf_cons₂, ih hcs ts]
      simp [hund]

/-- Boolean substring containment: some suffix of the haystack starts
with the needle. -/
def containsSub (n h : List Char) : Bool :=
  h.tails.any (fun t => n.isPrefixOf t)

/-- `containsSub` is exactly the infix relation. -/
theorem containsSub_eq_true_iff (n h : List Char) :
    containsSub n h = true ↔ ∃ u v, h = u ++ n ++ v := by
  constructor
  · intro hc
    obtain ⟨t, ht, hp⟩ := List.any_eq_true.mp hc
    obtain ⟨u, hu⟩ := (List.mem_tails _ _).mp ht
    obtain ⟨v, hv⟩ := List.isPrefixOf_iff_prefix.mp hp
    exact ⟨u, v, by rw [← hu, ← hv, List.append_assoc]⟩
  · rintro ⟨u, v, rfl⟩
    refine List.any_eq_true.mpr ⟨n ++ v, (List.mem_tails _ _).mpr ⟨u, ?_⟩, ?_⟩
    · rw [List.append_assoc]
    · exact List.isPrefixOf_iff_prefix.mpr ⟨v, rfl⟩

/-- For a wildcard-free needle, the both-ends-wildcarded pattern the
handler builds accepts exactly the strings containing the needle. -/
theorem likeMatchL_wildcarded (n : List Char)
    (hn : ∀ c ∈ n, c ≠ '%' ∧ c ≠ '_') (s : List Char) :
    likeMatchL ('%' :: (n ++ ['%'])) s = containsSub n s := by
  show (s.tails.any fun t => likeMatchL (n ++ ['%']) t) = _
  have : (fun t => likeMatchL (n ++ ['%']) t) = (fun t => n.isPrefixOf t) :=
    funext fun t => likeMatchL_append_percent n hn t
  rw [containsSub, this]

/-! ### Bridging lemmas -/

theorem pytruthy_some (s : String) (hs : s ≠ "") : pytruthy (some s) = true := by
  simp [pytruthy, hs]

/-- The spec-side reading of the phone predicate on one column: the
column is non-null and, internal spaces stripped, contains the cleaned
input as a substring. -/
def phoneContains (s : String) (col : Option String) : Bool :=
  match col with
  | none => false
  | some c => containsSub (stripSpaces s).data (stripSpaces c).data

/-- The spec-side phone predicate over the three phone columns. -/
def phoneSubstrMatch (s : String) (r : UserRow) : Bool :=
  phoneContains s r.WorkPhone || phoneContains s r.MobilePhone ||
    phoneContains s r.HomePhone

/-- On wildcard-free cleaned input, the `LIKE` atom the handler builds is
exactly substring containment after space-stripping. -/
theorem colLike_wildcarded (s : String)
    (hw : ∀ c ∈ (stripSpaces s).data, c ≠ '%' ∧ c ≠ '_') (col : Option String) :
    colLike col (some ("%" ++ stripSpaces s ++ "%")) = phoneContains s col := by
  cases col with
  | none => rfl
  | some c =>
    show likeMatch ("%" ++ stripSpaces s ++ "%") (stripSpaces c) = _
    have hdata : ("%" ++ stripSpaces s ++ "%").data =
        '%' :: ((stripSpaces s).data ++ ['%']) := by
      simp [String.data_append]
    rw [likeMatch, hdata, likeMatchL_wildcarded _ hw]
    rfl

/-- Claim C1 (amended): for every request supplying a non-empty `Number`
whose space-stripped form contains no SQL LIKE wildcard character (`%`
or `_`), the query matches a row exactly when at least one of the three
phone columns, its own spaces stripped, contains the cleaned input as a
substring. -/
theorem claim_C1_phone_substring_match (s : String) (r : UserRow)
    (hs : s ≠ "")
    (hw : ∀ c ∈ (stripSpaces s).data, c ≠ '%' ∧ c ≠ '_') :
    rowMatches (mkParams (some s) none) r = phoneSubstrMatch s r := by
  have hbeq : (s == "") = false := beq_eq_false_iff_ne.mpr hs
  simp [rowMatches, mkParams, pytruthy, hbeq, colEq]
  rw [colLike_wildcarded s hw, colLike_wildcarded s hw, colLike_wildcarded s hw]
  simp [phoneSubstrMatch, Bool.or_comm, Bool.or_left_comm]

/-- A row whose work phone is `"123"`: used to refute the unrestricted
substring reading of claim C1. -/
def wildcardRow : UserRow :=
  ⟨1, none, some "123", none, none, none, none⟩

/-- Claim C1, as stated, is false: the query input `"_"` (a SQL LIKE
single-character wildcard) matches the stored phone `"123"`, although
`"123"` does not contain `"_"` as a substring. -/
theorem claim_C1_counterexample :
    rowMatches (mkParams (some "_") none) wildcardRow = true ∧
    phoneSubstrMatch "_" wildcardRow = false := by
  decide

/-- A row storing the phone `"555 123 4567"` from the claim. -/
def storedPhoneRow : UserRow :=
  ⟨1, some "Jane Public", some "555 123 4567", none, none, none, none⟩

/-- Instantiation of claim C1: the stored phone `"555 123 4567"` is
matched both by `Number=5551234567` and by `Number=555 1234567`. -/
theorem claim_C1_witness :
    rowMatches (mkParams (some "5551234567") none) storedPhoneRow = true ∧
    rowMatches (mkParams (some "555 1234567") none) storedPhoneRow = true :=
  ⟨(claim_C1_phone_substring_match "5551234567" storedPhoneRow (by decide)
      (by decide)).trans (by decide),
   (claim_C1_phone_substring_match "555 1234567" storedPhoneRow (by decide)
      (by decide)).trans (by decide)⟩

/-- Claim C3: when both `Number` and `Email` are supplied (non-empty),
the rows returned are exactly those of the table satisfying the phone
predicate OR the email predicate: a row matching the phone-only query or
the email-only query alone is included. -/
theorem claim_C3_or_combination (s e : String) (hs : s ≠ "") (he : e ≠ "")
    (table : List UserRow) (r : UserRow) :
    r ∈ runQuery table (mkParams (some s) (some e)) ↔
      r ∈ table ∧
        (rowMatches (mkParams (some s) none) r = true ∨
         rowMatches (mkParams none (some e)) r = true) := by
  have hbs : (s == "") = false := beq_eq_false_iff_ne.mpr hs
  have hbe : (e == "") = false := beq_eq_false_iff_ne.mpr he
  simp [runQuery, List.mem_filter, rowMatches, mkParams, pytruthy, hbs, hbe,
    Bool.or_eq_true, and_assoc]

/-- A row reachable only through its phone columns. -/
def phoneOnlyRow : UserRow :=
  ⟨2, none, some "555 0000", none, none, some "other@x.com", none⟩

/-- A row reachable only through its email column. -/
def emailOnlyRow : UserRow :=
  ⟨3, none, none, none, none, some "a@b.com", none⟩

/-- Instantiation of claim C3: with `Number=5550` and `Email=a@b.com`,
a row matching on phone alone and a row matching on email alone are both
returned. -/
theorem claim_C3_witness :
    phoneOnlyRow ∈
      runQuery [phoneOnlyRow, emailOnlyRow] (mkParams (some "5550") (some "a@b.com")) ∧
    emailOnlyRow ∈
      runQuery [phoneOnlyRow, emailOnlyRow] (mkParams (some "5550") (some "a@b.com")) :=
  ⟨(claim_C3_or_combination "5550" "a@b.com" (by decide) (by decide) _ _).mpr
      ⟨by simp, Or.inl (by decide)⟩,
   (claim_C3_or_combination "5550" "a@b.com" (by decide) (by decide) _ _).mpr
      ⟨by simp, Or.inr (by decide)⟩⟩

/-- The display name `"Jane Q Public"` from the claim. -/
def janeRow : UserRow := ⟨1, some "Jane Q Public", none, none, none, none, none⟩

/-- The single-token display name `"Madonna"` from the claim. -/
def madonnaRow : UserRow := ⟨2, some "Madonna", none, none, none, none, none⟩

/-- A row with a null display name (and null email). -/
def nullNameRow : UserRow := ⟨3, none, none, none, none, none, none⟩

/-- Claim C4: the formatter splits the display name on single spaces;
the first token is `firstname` and the remaining tokens, rejoined with
single spaces, are `lastname`; `"Jane Q Public"` gives `"Jane"` /
`"Q Public"`, a single token gives an empty `lastname`, and a null
display name gives both fields empty. -/
theorem claim_C4_name_splitting :
    (∀ r : UserRow,
      (formatContact r).firstname =
        String.mk ((splitSpace (pyOrEmpty r.RealName).data).headD []) ∧
      (formatContact r).lastname =
        String.mk (List.intercalate [' ']
          ((splitSpace (pyOrEmpty r.RealName).data).drop 1))) ∧
    (formatContact janeRow).firstname = "Jane" ∧
    (formatContact janeRow).lastname = "Q Public" ∧
    (formatContact madonnaRow).firstname = "Madonna" ∧
    (formatContact madonnaRow).lastname = "" ∧
    (formatContact nullNameRow).firstname = "" ∧
    (formatContact nullNameRow).lastname = "" := by
  refine ⟨fun r => ?_, by decide, by decide, by decide, by decide, by decide, by decide⟩
  cases hp : splitSpace (pyOrEmpty r.RealName).data with
  | nil =>
    exact ⟨by simp [formatContact, hp], by simp [formatContact, hp]; try rfl⟩
  | cons t ts =>
    cases ts with
    | nil =>
      exact ⟨by simp [formatContact, hp], by simp [formatContact, hp, List.intercalate]; try rfl⟩
    | cons u us => simp [formatContact, hp]

/-- Claim C5: the formatter renders `company` and the three phone fields
as `""` when the stored value is null, while `email` is passed through
unmodified, so a null stored email stays null in the response. -/
theorem claim_C5_null_field_defaults :
    (∀ r : UserRow,
      (formatContact { r with Organization := none }).company = "" ∧
      (formatContact { r with WorkPhone := none }).phonebusiness = "" ∧
      (formatContact { r with MobilePhone := none }).phonemobile = "" ∧
      (formatContact { r with HomePhone := none }).phonehome = "" ∧
      (formatContact r).email = r.EmailAddress) ∧
    (formatContact nullNameRow).email = none :=
  ⟨fun _ => ⟨rfl, rfl, rfl, rfl, rfl⟩, rfl⟩

/-- Claim C6: with valid credentials, a request in which both parameters
are absent or empty is rejected with `400` for every database state,
error states included — so the query outcome is never consulted. -/
theorem claim_C6_missing_params_rejected (cfg : AuthConfig) (db : DbOutcome) :
    handleRequest cfg ⟨cfg.API_KEY, cfg.API_PASSWORD⟩ none none db =
      .failure 400 "Either Number or Email must be provided" ∧
    handleRequest cfg ⟨cfg.API_KEY, cfg.API_PASSWORD⟩ (some "") none db =
      .failure 400 "Either Number or Email must be provided" ∧
    handleRequest cfg ⟨cfg.API_KEY, cfg.API_PASSWORD⟩ none (some "") db =
      .failure 400 "Either Number or Email must be provided" ∧
    handleRequest cfg ⟨cfg.API_KEY, cfg.API_PASSWORD⟩ (some "") (some "") db =
      .failure 400 "Either Number or Email must be provided" := by
  refine ⟨?_, ?_, ?_, ?_⟩ <;>
    simp [handleRequest, get_current_credentials, lookup_contact, pytruthy]

/-- Instantiation of claim C6 at a concrete configuration and a failing
database. -/
theorem claim_C6_witness :
    handleRequest ⟨"key", "pw"⟩ ⟨"key", "pw"⟩ none none (.fail "down") =
      .failure 400 "Either Number or Email must be provided" :=
  (claim_C6_missing_params_rejected ⟨"key", "pw"⟩ (.fail "down")).1

/-- Claim C7: credential validation succeeds exactly when both the
username matches `API_KEY` and the password matches `API_PASSWORD`; in
every other case it fails with the single generic 403 message, which
therefore cannot disclose which field was wrong. -/
theorem claim_C7_auth_generic_failure (cfg : AuthConfig) (c : Credentials) :
    (get_current_credentials cfg c = .ok c.username ↔
      (c.username = cfg.API_KEY ∧ c.password = cfg.API_PASSWORD)) ∧
    (get_current_credentials cfg c = .ok c.username ∨
      get_current_credentials cfg c = .error (403, "Could not validate credentials")) := by
  by_cases hu : c.username = cfg.API_KEY <;>
    by_cases hp : c.password = cfg.API_PASSWORD <;>
      simp [get_current_credentials, hu, hp]

/-- Instantiation of claim C7: a wrong-password attempt and a
wrong-username attempt produce identical 403 results. -/
theorem claim_C7_witness :
    (get_current_credentials ⟨"key", "pw"⟩ ⟨"key", "oops"⟩ = .ok "key" ↔
      (("key" : String) = "key" ∧ ("oops" : String) = "pw")) ∧
    (get_current_credentials ⟨"key", "pw"⟩ ⟨"key", "oops"⟩ = .ok "key" ∨
      get_current_credentials ⟨"key", "pw"⟩ ⟨"key", "oops"⟩ =
        .error (403, "Could not validate credentials")) :=
  claim_C7_auth_generic_failure ⟨"key", "pw"⟩ ⟨"key", "oops"⟩

/-- Claim C8: for a valid credentialed request that passes validation, a
query execution failure yields the generic 500 message whatever the
underlying cause was, and a query returning zero rows yields 404; the
single query execution of the model leaves no room for a retry. -/
theorem claim_C8_not_found_and_db_error (cfg : AuthConfig)
    (Number Email : Option String)
    (hv : (pytruthy Number || pytruthy Email) = true) :
    (∀ msg, handleRequest cfg ⟨cfg.API_KEY, cfg.API_PASSWORD⟩ Number Email (.fail msg) =
        .failure 500 "Database error occurred.") ∧
    (∀ table, runQuery table (mkParams Number Email) = [] →
      handleRequest cfg ⟨cfg.API_KEY, cfg.API_PASSWORD⟩ Number Email (.ok table) =
        .failure 404 "Contact not found") := by
  have hauth : get_current_credentials cfg ⟨cfg.API_KEY, cfg.API_PASSWORD⟩ =
      .ok cfg.API_KEY := by
    simp [get_current_credentials]
  have hguard : (!pytruthy Number && !pytruthy Email) = false := by
    cases hN : pytruthy Number <;> cases hE : pytruthy Email <;> simp_all
  constructor
  · intro msg
    simp [handleRequest, hauth, lookup_contact, hguard]
  · intro table h
    simp [handleRequest, hauth, lookup_contact, hguard, h]

/-- Instantiation of claim C8: a concrete failing query and a concrete
empty result. -/
theorem claim_C8_witness :
    handleRequest ⟨"key", "pw"⟩ ⟨"key", "pw"⟩ (some "5") none (.fail "socket reset") =
      .failure 500 "Database error occurred." ∧
    handleRequest ⟨"key", "pw"⟩ ⟨"key", "pw"⟩ (some "5") none (.ok []) =
      .failure 404 "Contact not found" :=
  ⟨(claim_C8_not_found_and_db_error ⟨"key", "pw"⟩ (some "5") none (by decide)).1
      "socket reset",
   (claim_C8_not_found_and_db_error ⟨"key", "pw"⟩ (some "5") none (by decide)).2
      [] rfl⟩

/-- Claim C9: a request supplying only a non-empty `Email` matches a row
exactly when the stored email column equals the query string — plain
equality, with no substring or space-stripping transformation. -/
theorem claim_C9_email_exact_equality (e : String) (r : UserRow) (he : e ≠ "") :
    rowMatches (mkParams none (some e)) r = true ↔ r.EmailAddress = some e := by
  have hbe : (e == "") = false := beq_eq_false_iff_ne.mpr he
  cases hE : r.EmailAddress with
  | none => simp [rowMatches, mkParams, pytruthy, hbe, colEq, colLike, hE]
  | some v => simp [rowMatches, mkParams, pytruthy, hbe, colEq, colLike, hE]

/-- A row storing the email `"a@b.com"` from the claim. -/
def emailRowAB : UserRow := ⟨4, none, none, none, none, some "a@b.com", none⟩

/-- Instantiation of claim C9: the stored email `"a@b.com"` is not
matched by the query `Email=a@b.co`, although it contains it as a
substring. -/
theorem claim_C9_witness :
    rowMatches (mkParams none (some "a@b.co")) emailRowAB = false := by
  have h := claim_C9_email_exact_equality "a@b.co" emailRowAB (by decide)
  cases hb : rowMatches (mkParams none (some "a@b.co")) emailRowAB
  · rfl
  · exact absurd (h.mp hb) (by decide)

/-- Claim C10: a `Number` consisting only of spaces (with `Email`
absent) passes the emptiness check, produces the LIKE pattern `"%%"`,
matches exactly the rows with at least one non-null phone column, and is
never answered with the 400 rejection. -/
theorem claim_C10_space_only_number (s : String) (r : UserRow)
    (hne : s ≠ "") (hsp : ∀ c ∈ s.data, c = ' ') :
    pytruthy (some s) = true ∧
    (mkParams (some s) none).like_pattern = some "%%" ∧
    rowMatches (mkParams (some s) none) r =
      (r.WorkPhone.isSome || r.MobilePhone.isSome || r.HomePhone.isSome) ∧
    (∀ db : DbOutcome, lookup_contact (some s) none db ≠
      .failure 400 "Either Number or Email must be provided") := by
  have hbeq : (s == "") = false := beq_eq_false_iff_ne.mpr hne
  have hstrip : stripSpaces s = "" := by
    apply congrArg String.mk
    exact List.filter_eq_nil_iff.mpr fun a ha => by simp [hsp a ha]
  have hpat : (mkParams (some s) none).like_pattern = some "%%" := by
    simp [mkParams, pytruthy, hbeq, hstrip]
  have hcol : ∀ col : Option String, colLike col (some "%%") = col.isSome := by
    intro col
    cases col with
    | none => rfl
    | some c =>
      show likeMatch "%%" (stripSpaces c) = true
      exact likeMatchL_double_percent _
  refine ⟨by simp [pytruthy, hbeq], hpat, ?_, ?_⟩
  · have : mkParams (some s) none =
        ⟨some s, some "%%", none, none⟩ := by
      simp [mkParams, pytruthy, hbeq, hstrip]
    rw [this]
    simp [rowMatches, colEq, hcol, Bool.or_comm, Bool.or_left_comm, Bool.or_assoc]
  · intro db
    cases db with
    | fail msg => simp [lookup_contact, pytruthy, hbeq]
    | ok table =>
      simp [lookup_contact, pytruthy, hbeq]
      split <;> simp

/-- A row whose only non-null phone column is the work phone. -/
def spacePhoneRow : UserRow := ⟨5, none, some "x", none, none, none, none⟩

/-- Instantiation of claim C10 at the single-space input `" "`: the row
with a non-null work phone matches, and the request is not rejected with
400 even on an empty table. -/
theorem claim_C10_witness :
    rowMatches (mkParams (some " ") none) spacePhoneRow =
      (spacePhoneRow.WorkPhone.isSome || spacePhoneRow.MobilePhone.isSome ||
        spacePhoneRow.HomePhone.isSome) ∧
    lookup_contact (some " ") none (.ok []) ≠
      .failure 400 "Either Number or Email must be provided" :=
  ⟨(claim_C10_space_only_number " " spacePhoneRow (by decide) (by decide)).2.2.1,
   (claim_C10_space_only_number " " spacePhoneRow (by decide) (by decide)).2.2.2
      (.ok [])⟩
